import Mathlib

/-!
Shallow embedding of the Skill_swap repository's data model and operations.

Sources embedded here:
- supabase/migrations/20250712064041-….sql : table definitions, enums,
  row-level-security (RLS) policies, signup trigger.
- supabase/migrations/20250712090806-….sql : messages table, profile
  aggregate columns, update_profile_stats trigger.
- src/pages/Networks.tsx : handleAcceptRequest / handleRejectRequest /
  handleDeleteRequest / handleCompleteSwap.
- src/pages/CreateRequest.tsx : handleSubmitRequest.
- src/pages/Rate.tsx : fetchSkillRequest / submitRating.
- src/hooks/useAuth.tsx : fetchUserRole (retry loop, timeout, admin-intent
  fallback).
- the Chat page (unnamed source file) : fetchChatData message query,
  handleCompleteSwap.
- the parallel Node/Express backend's swapController (unnamed source file) :
  createSwapRequest.

User ids, row ids and skill ids are modelled as `Nat` (the uuids of the
source carry no structure the claims need beyond equality).  PostgreSQL
`DECIMAL(3,2)` assignment rounds to two fractional digits (half away from
zero); this is modelled by `decimal3_2` over `ℚ`.
-/

/-- The `app_role` enum of the first migration. -/
inductive AppRole where
  | admin
  | user
deriving DecidableEq, Repr

/-- The `request_status` enum of the first migration:
`('pending', 'accepted', 'completed', 'cancelled', 'rejected')`. -/
inductive RequestStatus where
  | pending
  | accepted
  | completed
  | cancelled
  | rejected
deriving DecidableEq, Repr

/-- A row of `public.user_roles` (fields the policies consult). -/
structure UserRole where
  user_id : Nat
  role : AppRole
deriving DecidableEq, Repr

/-- A row of `public.profiles` (fields the claims consult; the second
migration adds `successful_swaps` and `average_rating DECIMAL(3,2)`). -/
structure Profile where
  user_id : Nat
  full_name : String
  average_rating : ℚ
  successful_swaps : Nat
deriving DecidableEq, Repr

/-- A row of `public.skill_requests`. -/
structure SkillRequest where
  id : Nat
  requester_id : Nat
  provider_id : Nat
  offered_skill_id : Nat
  wanted_skill_id : Nat
  message : Option String
  status : RequestStatus
deriving DecidableEq, Repr

/-- A row of `public.ratings`; the table carries
`CHECK (rating >= 1 AND rating <= 5)` and `UNIQUE(request_id, rater_id)`. -/
structure Rating where
  id : Nat
  request_id : Nat
  rater_id : Nat
  rated_id : Nat
  rating : Nat
  feedback : Option String
deriving DecidableEq, Repr

/-- A row of `public.messages` (second migration); `created_at` is modelled
as a natural-number timestamp. -/
structure Message where
  id : Nat
  skill_request_id : Nat
  sender_id : Nat
  content : String
  created_at : Nat
  is_read : Bool
deriving DecidableEq, Repr

/-- The SQL function `public.is_admin(user_uuid)`: true iff a
`user_roles` row with this user id and role `admin` exists. -/
def is_admin (user_roles : List UserRole) (uid : Nat) : Bool :=
  user_roles.any (fun ur => ur.user_id == uid && ur.role == AppRole.admin)

/-- The terminal statuses named by the spec: completed, cancelled, rejected. -/
def isTerminal (s : RequestStatus) : Bool :=
  match s with
  | .completed => true
  | .cancelled => true
  | .rejected => true
  | _ => false

/-- The `USING` clause of the RLS policy "Users can update their own
requests" on `skill_requests`:
`auth.uid() = requester_id OR auth.uid() = provider_id OR is_admin(auth.uid())`.
It consults only the caller's identity, never the row's status. -/
def skillRequestsUpdateUsing (user_roles : List UserRole) (uid : Nat)
    (r : SkillRequest) : Bool :=
  uid == r.requester_id || uid == r.provider_id || is_admin user_roles uid

/-- A supabase `update({ status: new }).eq('id', reqId)` against
`skill_requests` under RLS: every visible row matching the filter and
passing the update policy gets the new status; rows the policy rejects are
silently left unchanged (no error is raised). -/
def updateSkillRequestStatus (user_roles : List UserRole) (uid : Nat)
    (reqId : Nat) (new : RequestStatus) (reqs : List SkillRequest) :
    List SkillRequest :=
  reqs.map (fun r =>
    if r.id == reqId && skillRequestsUpdateUsing user_roles uid r then
      { r with status := new }
    else r)

/-- The `handleAcceptRequest` handler of Networks.tsx: sets status `accepted` on the
row with the given id. -/
def handleAcceptRequest (user_roles : List UserRole) (uid reqId : Nat)
    (reqs : List SkillRequest) : List SkillRequest :=
  updateSkillRequestStatus user_roles uid reqId .accepted reqs

/-- The `handleRejectRequest` handler of Networks.tsx: sets status `rejected` on the
row with the given id. -/
def handleRejectRequest (user_roles : List UserRole) (uid reqId : Nat)
    (reqs : List SkillRequest) : List SkillRequest :=
  updateSkillRequestStatus user_roles uid reqId .rejected reqs

/-- The `handleDeleteRequest` handler of Networks.tsx (the cancel action): sets status
`cancelled` on the row with the given id.  The Networks page renders the
cancel button only on the requester's own pending outgoing requests, but
the operation itself carries no requester or status filter. -/
def handleDeleteRequest (user_roles : List UserRole) (uid reqId : Nat)
    (reqs : List SkillRequest) : List SkillRequest :=
  updateSkillRequestStatus user_roles uid reqId .cancelled reqs

/-- The `handleCompleteSwap` handler of Networks.tsx and of the Chat page: sets status
`completed` on the row with the given id. -/
def handleCompleteSwap (user_roles : List UserRole) (uid reqId : Nat)
    (reqs : List SkillRequest) : List SkillRequest :=
  updateSkillRequestStatus user_roles uid reqId .completed reqs

/-- Store-level failure modes surfaced to the clients. -/
inductive DbError where
  | rls
  | check
  | unique
deriving DecidableEq, Repr

/-- PostgreSQL assignment of a numeric value to a `DECIMAL(3,2)` column
(the type of `profiles.average_rating`): the value is rounded to two
fractional digits, halves away from zero (ratings are positive, so this is
ordinary half-up rounding). -/
def decimal3_2 (q : ℚ) : ℚ :=
  (round (q * 100) : ℚ) / 100

/-- The `WITH CHECK` clause of the RLS policy "Users can create ratings for
completed requests": `auth.uid() = rater_id` (nothing else is checked at
the store for rating inserts). -/
def ratingsInsertWithCheck (uid : Nat) (r : Rating) : Bool :=
  uid == r.rater_id

/-- The table constraint `CHECK (rating >= 1 AND rating <= 5)`. -/
def ratingCheckConstraint (r : Rating) : Bool :=
  1 ≤ r.rating && r.rating ≤ 5

/-- Whether inserting `r` would violate `UNIQUE(request_id, rater_id)`. -/
def ratingKeyConflict (ratings : List Rating) (r : Rating) : Bool :=
  ratings.any (fun x => x.request_id == r.request_id && x.rater_id == r.rater_id)

/-- The ratings-side state the rating flow touches: the `ratings` table and
the `profiles` table (whose aggregates the trigger maintains). -/
structure RatingsDb where
  ratings : List Rating
  profiles : List Profile
deriving DecidableEq, Repr

/-- The `USING` clause of the RLS policy "Users can update their own
profile" on `profiles`:
`auth.uid() = user_id OR is_admin(auth.uid())`. -/
def profilesUpdateUsing (user_roles : List UserRole) (uid : Nat)
    (p : Profile) : Bool :=
  uid == p.user_id || is_admin user_roles uid

/-- The trigger function `update_profile_stats` (second migration): set the
rated user's `average_rating` to `COALESCE(AVG(rating), 0.0)` over their
received ratings (stored into a `DECIMAL(3,2)` column) and
`successful_swaps` to `COUNT(DISTINCT request_id)` over the same rows.
The function is declared plain `LANGUAGE plpgsql` — not `SECURITY DEFINER`,
unlike `is_admin` or `handle_new_user` — so it runs with the rights of the
invoker `invokerUid` (the user whose statement fired the trigger), and its
`UPDATE public.profiles` is filtered by the profiles RLS update policy:
only rows the invoker may update actually receive the new aggregates. -/
def update_profile_stats (user_roles : List UserRole) (invokerUid : Nat)
    (ratings : List Rating) (rated_id : Nat)
    (profiles : List Profile) : List Profile :=
  let received := ratings.filter (fun x => x.rated_id == rated_id)
  let avg : ℚ :=
    if received.length = 0 then 0
    else (received.map (fun x => (x.rating : ℚ))).sum / received.length
  let swaps := ((received.map (fun x => x.request_id)).dedup).length
  profiles.map (fun p =>
    if p.user_id == rated_id && profilesUpdateUsing user_roles invokerUid p then
      { p with average_rating := decimal3_2 avg, successful_swaps := swaps }
    else p)

/-- An `INSERT` into `public.ratings` by caller `uid`, with the RLS insert
policy, the rating range check and the `(request_id, rater_id)` uniqueness
constraint; on success the `update_profile_stats_trigger` (AFTER INSERT,
same transaction, invoker rights) runs over the rated user's profile
rows. -/
def insertRating (user_roles : List UserRole) (uid : Nat) (r : Rating)
    (db : RatingsDb) : Except DbError RatingsDb :=
  if ¬ ratingsInsertWithCheck uid r then .error .rls
  else if ¬ ratingCheckConstraint r then .error .check
  else if ratingKeyConflict db.ratings r then .error .unique
  else
    let ratings := db.ratings ++ [r]
    .ok { ratings := ratings
          profiles :=
            update_profile_stats user_roles uid ratings r.rated_id
              db.profiles }

/-- The state after an attempted rating insert: the new state on success,
the unchanged state on failure (the failed statement's transaction aborts). -/
def ratingsStateAfter (user_roles : List UserRole) (uid : Nat) (r : Rating)
    (db : RatingsDb) : RatingsDb :=
  match insertRating user_roles uid r db with
  | .ok db' => db'
  | .error _ => db

/-- Whether an `Except` result is a success. -/
def insertOk {ε α : Type} (x : Except ε α) : Bool :=
  match x with
  | .ok _ => true
  | .error _ => false

/-- The pair `(request_id, rater_id)` is pairwise distinct across rows. -/
def RatingKeysUnique (ratings : List Rating) : Prop :=
  List.Pairwise
    (fun a b => ¬(a.request_id = b.request_id ∧ a.rater_id = b.rater_id))
    ratings

/-- Decidability of the uniqueness invariant, so witnesses can evaluate it. -/
instance : DecidablePred RatingKeysUnique := fun l =>
  List.instDecidablePairwise l

/-- Whether `ratings` already holds a rating by `uid` for request `reqId`
(the Rate page's read-before-write duplicate query). -/
def hasRatingBy (ratings : List Rating) (reqId uid : Nat) : Bool :=
  ratings.any (fun x => x.request_id == reqId && x.rater_id == uid)

/-- The `fetchSkillRequest` flow of Rate.tsx: load the request by id
(`.single()` under the skill_requests SELECT policy: requester, provider or
admin), throw "Unauthorized" when the caller is neither requester nor
provider, and bail out (navigate away) when the caller already rated this
request.  Returns the loaded request only when every check passes. -/
def fetchSkillRequest (user_roles : List UserRole) (uid reqId : Nat)
    (reqs : List SkillRequest) (ratings : List Rating) :
    Option SkillRequest :=
  match reqs.find? (fun r =>
      r.id == reqId &&
      (uid == r.requester_id || uid == r.provider_id ||
       is_admin user_roles uid)) with
  | none => none
  | some rd =>
    if rd.requester_id ≠ uid ∧ rd.provider_id ≠ uid then none
    else if hasRatingBy ratings reqId uid then none
    else some rd

/-- The `submitRating` handler of Rate.tsx: guard `rating === 0`, compute
the partner id, and insert the rating row (id generated by the store). -/
def submitRating (user_roles : List UserRole) (uid : Nat)
    (rd : SkillRequest) (ratingVal : Nat) (feedback : Option String)
    (newId : Nat) (db : RatingsDb) : Except DbError RatingsDb :=
  let partnerId :=
    if rd.requester_id == uid then rd.provider_id else rd.requester_id
  insertRating user_roles uid
    { id := newId, request_id := rd.id, rater_id := uid,
      rated_id := partnerId, rating := ratingVal, feedback := feedback } db

/-- The whole Rate-page submission: `submitRating` is reachable only after
`fetchSkillRequest` succeeded (otherwise the page navigates away and
`skillRequest` stays unset), and only with a non-zero star value. -/
def ratePageSubmit (user_roles : List UserRole) (uid reqId ratingVal : Nat)
    (feedback : Option String) (newId : Nat) (reqs : List SkillRequest)
    (db : RatingsDb) : Except DbError RatingsDb :=
  match fetchSkillRequest user_roles uid reqId reqs db.ratings with
  | none => .error .rls
  | some rd =>
    if ratingVal = 0 then .error .check
    else submitRating user_roles uid rd ratingVal feedback newId db

/-- The `WITH CHECK` clause of the RLS policy "Users can create requests"
on `skill_requests`: `auth.uid() = requester_id`. -/
def skillRequestsInsertWithCheck (uid : Nat) (r : SkillRequest) : Bool :=
  uid == r.requester_id

/-- An `INSERT` into `public.skill_requests`.  The migration declares no
uniqueness constraint on this table, so the only store-side gate is the
insert policy. -/
def insertSkillRequest (uid : Nat) (r : SkillRequest)
    (reqs : List SkillRequest) : Except DbError (List SkillRequest) :=
  if skillRequestsInsertWithCheck uid r then .ok (reqs ++ [r])
  else .error .rls

/-- The `handleSubmitRequest` handler of CreateRequest.tsx: build the row (status
`pending`, requester = caller) and insert it.  The handler performs no
query for an existing pending request before the insert. -/
def handleSubmitRequest (uid newId providerId offeredSkillId wantedSkillId : Nat)
    (message : Option String) (reqs : List SkillRequest) :
    Except DbError (List SkillRequest) :=
  insertSkillRequest uid
    { id := newId, requester_id := uid, provider_id := providerId,
      offered_skill_id := offeredSkillId, wanted_skill_id := wantedSkillId,
      message := message, status := .pending } reqs

/-- Whether a pending request with the same
(requester, provider, offered skill, wanted skill) tuple exists. -/
def pendingDuplicateExists (reqs : List SkillRequest)
    (requesterId providerId offeredSkillId wantedSkillId : Nat) : Bool :=
  reqs.any (fun r =>
    r.requester_id == requesterId && r.provider_id == providerId &&
    r.offered_skill_id == offeredSkillId &&
    r.wanted_skill_id == wantedSkillId && r.status == RequestStatus.pending)

/-- A skill entry of the parallel Node backend's mongoose `User` schema. -/
structure NodeSkill where
  name : String
deriving DecidableEq, Repr

/-- A user document of the parallel Node backend. -/
structure NodeUser where
  id : Nat
  skillsOffered : List NodeSkill
deriving DecidableEq, Repr

/-- A `SwapRequest` document of the parallel Node backend (status is the
mongoose enum string, default `"pending"`). -/
structure NodeSwapRequest where
  requester : Nat
  recipient : Nat
  offeredSkill : String
  requestedSkill : String
  message : Option String
  status : String
deriving DecidableEq, Repr

/-- The `createSwapRequest` controller of the Node backend's swap controller: 404 when the
recipient does not exist, 400 when the requester lacks the offered skill,
400 when the recipient lacks the requested skill, 400 when a pending swap
between these users for these skills already exists, else save a new
pending `SwapRequest`.  The error value is the HTTP status code sent. -/
def createSwapRequest (callerId recipient : Nat)
    (offeredSkill requestedSkill : String) (message : Option String)
    (users : List NodeUser) (swaps : List NodeSwapRequest) :
    Except Nat (List NodeSwapRequest) :=
  match users.find? (fun u => u.id == recipient) with
  | none => .error 404
  | some recipientUser =>
    match users.find? (fun u => u.id == callerId) with
    | none => .error 500
    | some requester =>
      if ¬ requester.skillsOffered.any (fun s => s.name == offeredSkill) then
        .error 400
      else if ¬ recipientUser.skillsOffered.any
          (fun s => s.name == requestedSkill) then
        .error 400
      else if swaps.any (fun s =>
          s.requester == callerId && s.recipient == recipient &&
          s.offeredSkill == offeredSkill &&
          s.requestedSkill == requestedSkill && s.status == "pending") then
        .error 400
      else
        .ok (swaps ++
          [{ requester := callerId, recipient := recipient,
             offeredSkill := offeredSkill, requestedSkill := requestedSkill,
             message := message, status := "pending" }])

/-- The ordering key of the Chat page's message query: creation time,
non-decreasing (`order('created_at', { ascending: true })`). -/
def MessageLE (a b : Message) : Prop :=
  a.created_at ≤ b.created_at

instance : DecidableRel MessageLE := fun a b =>
  inferInstanceAs (Decidable (a.created_at ≤ b.created_at))

instance : IsTotal Message MessageLE :=
  ⟨fun a b => Nat.le_total a.created_at b.created_at⟩

instance : IsTrans Message MessageLE :=
  ⟨fun _ _ _ h1 h2 => Nat.le_trans h1 h2⟩

/-- The filter of the Chat page's message query:
`eq('skill_request_id', requestId)`. -/
def messagesOfRequest (msgs : List Message) (reqId : Nat) : List Message :=
  msgs.filter (fun m => m.skill_request_id == reqId)

/-- The message query of the Chat page's `fetchChatData`: the messages of
the request, ordered by `created_at` ascending. -/
def fetchChatMessages (msgs : List Message) (reqId : Nat) : List Message :=
  List.insertionSort MessageLE (messagesOfRequest msgs reqId)

/-- The outcome of one supabase `select('role').eq('user_id', uid).maybeSingle()`
call as seen by useAuth.tsx: a transport error, or data that is either
`null` or one role row. -/
inductive FetchOutcome where
  | err
  | ok (r : Option AppRole)
deriving DecidableEq, Repr

/-- A role read against the store: under the `user_roles` SELECT policy the
caller sees exactly the rows with their own `user_id`; `maybeSingle()`
yields `null` for zero rows, the row for one, and an error for several.
`netErr` injects a transport failure (the error path the hook retries on). -/
def storeSelectRole (user_roles : List UserRole) (uid : Nat)
    (netErr : Bool) : FetchOutcome :=
  if netErr then .err
  else
    match user_roles.filter (fun ur => ur.user_id == uid) with
    | [] => .ok none
    | [ur] => .ok (some ur.role)
    | _ :: _ :: _ => .err

/-- The hook's `maxRetries` constant (useAuth.tsx line 80). -/
def maxRetries : Nat := 5

/-- The `attemptFetch` recursion of useAuth.tsx, returning the resolved
role and the number of fetch calls made.  `fetchAt k` is the outcome of the
`(k+1)`-th fetch; `retriesLeft` is `maxRetries − retryCount`, so the guard
`retryCount < maxRetries` of the source is `retriesLeft > 0`; each retry is
preceded by a 1-second wait.  On an error with retries left it recurses;
on an exhausted error or an empty result it returns `'user'`; on data it
returns the fetched role. -/
def attemptFetch (fetchAt : Nat → FetchOutcome) :
    Nat → Nat → AppRole × Nat
  | 0, attemptIdx =>
    match fetchAt attemptIdx with
    | .err => (.user, 1)
    | .ok none => (.user, 1)
    | .ok (some role) => (role, 1)
  | retriesLeft + 1, attemptIdx =>
    match fetchAt attemptIdx with
    | .err =>
      let res := attemptFetch fetchAt retriesLeft (attemptIdx + 1)
      (res.1, res.2 + 1)
    | .ok none => (.user, 1)
    | .ok (some role) => (role, 1)

/-- Elapsed time of the retry loop in milliseconds: the durations of the
fetches made plus the 1000 ms sleep before each retry. -/
def loopElapsed (durations : Nat → Nat) (attempts : Nat) : Nat :=
  ((List.range attempts).map durations).sum + 1000 * (attempts - 1)

/-- The `fetchUserRole` promise of useAuth.tsx on the regular (no
admin-intent) path: the retry loop raced against the
`setTimeout(..., 8000)` that resolves `'user'`; the loop's answer stands
only when it lands inside the 8-second budget. -/
def fetchUserRoleTimed (durations : Nat → Nat)
    (fetchAt : Nat → FetchOutcome) : AppRole :=
  let result := attemptFetch fetchAt maxRetries 0
  if loopElapsed durations result.2 < 8000 then result.1 else .user

/-- An `INSERT` into `public.user_roles` by caller `callerUid`.  The policy
"Only admins can manage roles" is `FOR ALL USING (is_admin(auth.uid()))`,
which PostgreSQL applies as the insert's `WITH CHECK`; the table also
carries `UNIQUE(user_id, role)`. -/
def storeInsertUserRole (user_roles : List UserRole) (callerUid : Nat)
    (row : UserRole) : Except DbError (List UserRole) :=
  if ¬ is_admin user_roles callerUid then .error .rls
  else if user_roles.any (fun ur =>
      ur.user_id == row.user_id && ur.role == row.role) then .error .unique
  else .ok (user_roles ++ [row])

/-- The `fetchRole` body of useAuth.tsx composed with the store, ignoring
the 8-second race (which can only force `'user'`).  With the
`admin_role_<userId>` local-storage flag set to `'admin'` the hook first
reads the role: an `'admin'` row resolves `'admin'` at once; a read error
makes it attempt `insert([{ user_id, role: 'admin' }])` and resolve
`'admin'` when that insert succeeds; every other case falls through to the
regular `attemptFetch` retry loop.  `readErr k` tells whether the
`(k+1)`-th read of the session fails in transport. -/
def fetchUserRoleResolved (user_roles : List UserRole) (uid : Nat)
    (adminIntent : Bool) (readErr : Nat → Bool) : AppRole :=
  let fetchAt := fun k => storeSelectRole user_roles uid (readErr k)
  if adminIntent then
    match fetchAt 0 with
    | .ok (some .admin) => .admin
    | .err =>
      match storeInsertUserRole user_roles uid ⟨uid, .admin⟩ with
      | .ok _ => .admin
      | .error _ => (attemptFetch (fun k => fetchAt (k + 1)) maxRetries 0).1
    | _ => (attemptFetch (fun k => fetchAt (k + 1)) maxRetries 0).1
  else (attemptFetch fetchAt maxRetries 0).1

/-- Spec-side aggregate: the ratings received by one user. -/
def ratingsFor (ratings : List Rating) (rated : Nat) : List Rating :=
  ratings.filter (fun x => x.rated_id == rated)

/-- Spec-side aggregate: sum of a list of rating scores, in `ℚ`. -/
def ratingSum (l : List Rating) : ℚ :=
  (l.map (fun x => (x.rating : ℚ))).sum

/-- Spec-side aggregate: the arithmetic mean of a list of rating scores. -/
def ratingMean (l : List Rating) : ℚ :=
  ratingSum l / l.length

/-- Spec-side aggregate: `COUNT(DISTINCT request_id)` over rating rows. -/
def distinctRequestCount (l : List Rating) : Nat :=
  ((l.map (fun x => x.request_id)).dedup).length

/-- Concrete fixture: a completed request between requester 1 and
provider 2 over skills 100 and 200. -/
def reqCompleted : SkillRequest :=
  { id := 10, requester_id := 1, provider_id := 2, offered_skill_id := 100,
    wanted_skill_id := 200, message := none, status := .completed }

/-- Concrete fixture: an accepted request between requester 1 and
provider 2. -/
def reqAccepted : SkillRequest :=
  { id := 11, requester_id := 1, provider_id := 2, offered_skill_id := 100,
    wanted_skill_id := 200, message := none, status := .accepted }

/-- Concrete fixture: a pending request between requester 1 and provider 2
over skills 100 and 200. -/
def reqPending : SkillRequest :=
  { id := 12, requester_id := 1, provider_id := 2, offered_skill_id := 100,
    wanted_skill_id := 200, message := none, status := .pending }

/-- Concrete fixture: user 7's profile row with aggregates reflecting two
received ratings of 5 and 4 (mean 9/2). -/
def profileSeven : Profile :=
  { user_id := 7, full_name := "Seven", average_rating := 9/2,
    successful_swaps := 2 }

/-- Concrete fixture: ratings received by user 7 (scores 5 and 4 on two
requests) plus user 7's profile row with fresh aggregates. -/
def dbSevens : RatingsDb :=
  { ratings :=
      [{ id := 1, request_id := 100, rater_id := 2, rated_id := 7,
         rating := 5, feedback := none },
       { id := 2, request_id := 101, rater_id := 3, rated_id := 7,
         rating := 4, feedback := none }]
    profiles := [profileSeven] }

/-- Concrete fixture: a third rating of score 4 for user 7, by rater 4 on
request 102. -/
def ratingThird : Rating :=
  { id := 3, request_id := 102, rater_id := 4, rated_id := 7,
    rating := 4, feedback := none }

/-- Concrete fixture: a store holding one rating by rater 1 for request 10
(the request of `reqCompleted`). -/
def dbRated : RatingsDb :=
  { ratings :=
      [{ id := 1, request_id := 10, rater_id := 1, rated_id := 2,
         rating := 4, feedback := none }]
    profiles := [] }

/-- Concrete fixture: a second rating by rater 1 for request 10, colliding
with the one already in `dbRated`. -/
def ratingDup : Rating :=
  { id := 2, request_id := 10, rater_id := 1, rated_id := 2,
    rating := 5, feedback := none }

/-- Concrete fixture: a fetch oracle on which every attempt errors. -/
def allErrFetch : Nat → FetchOutcome := fun _ => .err

/-- Concrete fixture: every fetch takes two seconds. -/
def twoSecondFetches : Nat → Nat := fun _ => 2000

/-- Concrete fixture: every role read fails in transport. -/
def alwaysReadErr : Nat → Bool := fun _ => true

/-- Concrete fixture: user 1 holds only the plain `user` role. -/
def rolesPlainUser : List UserRole :=
  [{ user_id := 1, role := .user }]

/-- Concrete fixture: three chat messages, two of them (out of creation
order) for request 5 and one for request 6. -/
def msgsFixture : List Message :=
  [{ id := 1, skill_request_id := 5, sender_id := 1, content := "later",
     created_at := 30, is_read := false },
   { id := 2, skill_request_id := 5, sender_id := 2, content := "earlier",
     created_at := 10, is_read := false },
   { id := 3, skill_request_id := 6, sender_id := 1, content := "other",
     created_at := 20, is_read := false }]

/-- Concrete fixture: Node-backend users 1 and 2, each offering one skill. -/
def nodeUsers : List NodeUser :=
  [{ id := 1, skillsOffered := [{ name := "guitar" }] },
   { id := 2, skillsOffered := [{ name := "cooking" }] }]

/-- Concrete fixture: a pending Node-backend swap from user 1 to user 2
trading guitar for cooking. -/
def nodeSwapPending : NodeSwapRequest :=
  { requester := 1, recipient := 2, offeredSkill := "guitar",
    requestedSkill := "cooking", message := none, status := "pending" }

/-- Concrete fixture: user 7's profile with aggregates recomputed over the
three ratings, holding the stored two-decimal average. -/
def profileSevenAfter : Profile :=
  { user_id := 7, full_name := "Seven", average_rating := 433/100,
    successful_swaps := 3 }

/-- Concrete fixture: the state reached from `dbSevens` by inserting
`ratingThird` under an invoker who passes the profiles update policy (an
admin): the rating is committed and the aggregates are recomputed. -/
def dbSevensAfter : RatingsDb :=
  { ratings := dbSevens.ratings ++ [ratingThird],
    profiles := [profileSevenAfter] }

/-- Concrete fixture: the state reached from `dbSevens` by inserting
`ratingThird` as plain rater 4: the rating is committed but the trigger's
profile update is filtered out by the profiles update policy, so user 7's
aggregates are left as they were. -/
def dbSevensStale : RatingsDb :=
  { ratings := dbSevens.ratings ++ [ratingThird],
    profiles := [profileSeven] }

/-- Concrete fixture: user 4 holding the admin role. -/
def adminFour : List UserRole :=
  [{ user_id := 4, role := .admin }]

/-- A caller who is requester or provider of a row passes the
`skill_requests` update policy, whatever the row's status. -/
theorem participant_passes_update_policy (user_roles : List UserRole)
    (uid : Nat) (r : SkillRequest)
    (h : uid = r.requester_id ∨ uid = r.provider_id) :
    skillRequestsUpdateUsing user_roles uid r = true := by
  rcases h with h | h <;> simp [skillRequestsUpdateUsing, h]

/-- A row whose id matches and whose caller passes the update policy is
rewritten to the new status by `updateSkillRequestStatus`. -/
theorem update_applies_of_policy (user_roles : List UserRole) (uid : Nat)
    (reqs : List SkillRequest) (r : SkillRequest) (new : RequestStatus)
    (hmem : r ∈ reqs) (hpol : skillRequestsUpdateUsing user_roles uid r = true) :
    { r with status := new } ∈ updateSkillRequestStatus user_roles uid r.id new reqs := by
  have hf :
      (fun x =>
        if x.id == r.id && skillRequestsUpdateUsing user_roles uid x then
          { x with status := new }
        else x) r = { r with status := new } := by
    simp [hpol]
  exact hf ▸ List.mem_map_of_mem _ hmem

/-- A row whose caller fails the update policy is left unchanged by
`updateSkillRequestStatus` (the statement denies the write silently). -/
theorem update_skips_of_no_policy (user_roles : List UserRole) (uid : Nat)
    (reqs : List SkillRequest) (r : SkillRequest) (new : RequestStatus)
    (reqId : Nat) (hmem : r ∈ reqs)
    (hpol : skillRequestsUpdateUsing user_roles uid r = false) :
    r ∈ updateSkillRequestStatus user_roles uid reqId new reqs := by
  have hf :
      (fun x =>
        if x.id == reqId && skillRequestsUpdateUsing user_roles uid x then
          { x with status := new }
        else x) r = r := by
    simp [hpol]
  exact hf ▸ List.mem_map_of_mem _ hmem

/-- C1 (counterexample): the claim says a status write by a participant
against a request already in a terminal state is rejected by the
access-policy scope.  Here request 10 is `completed` (terminal), yet the
provider's accept write goes through and sets the status back to
`accepted`. -/
theorem c1_counterexample :
    isTerminal reqCompleted.status = true ∧
    reqCompleted.provider_id = 2 ∧
    handleAcceptRequest [] 2 10 [reqCompleted] =
      [{ reqCompleted with status := .accepted }] := by
  refine ⟨by decide, by decide, by decide⟩

/-- C1 (amended): every row's status is one of the five enum values, but
the update-policy scope consults only the caller's identity: a status
write by the requester or provider of a row is accepted and applied even
when the row's status is terminal. -/
theorem c1_terminal_not_protected (user_roles : List UserRole) (uid : Nat)
    (reqs : List SkillRequest) (r : SkillRequest) (new : RequestStatus)
    (hmem : r ∈ reqs) (hpart : uid = r.requester_id ∨ uid = r.provider_id)
    (hterm : isTerminal r.status = true) :
    skillRequestsUpdateUsing user_roles uid r = true ∧
    { r with status := new } ∈
      updateSkillRequestStatus user_roles uid r.id new reqs ∧
    ∀ r' ∈ updateSkillRequestStatus user_roles uid r.id new reqs,
      r'.status = .pending ∨ r'.status = .accepted ∨ r'.status = .completed ∨
      r'.status = .cancelled ∨ r'.status = .rejected := by
  have hpol := participant_passes_update_policy user_roles uid r hpart
  refine ⟨hpol, update_applies_of_policy user_roles uid reqs r new hmem hpol, ?_⟩
  intro r' _
  cases r'.status <;> simp

/-- C1 (witness): the amended theorem applied to the completed fixture
request, written by its requester. -/
theorem c1_terminal_not_protected_witness :
    skillRequestsUpdateUsing [] 1 reqCompleted = true ∧
    { reqCompleted with status := .accepted } ∈
      updateSkillRequestStatus [] 1 reqCompleted.id .accepted [reqCompleted] := by
  have h := c1_terminal_not_protected [] 1 [reqCompleted] reqCompleted .accepted
    (by decide) (by decide) (by decide)
  exact ⟨h.1, h.2.1⟩

/-- C6 (counterexample): the claim says only the requester may cancel and
only while pending, everything else leaving the row unchanged.  Here the
provider (user 2, not the requester) cancels request 11 while it is
`accepted` (not pending), and the row changes to `cancelled`. -/
theorem c6_counterexample :
    reqAccepted.status ≠ .pending ∧
    reqAccepted.requester_id ≠ 2 ∧
    reqAccepted.provider_id = 2 ∧
    handleDeleteRequest [] 2 11 [reqAccepted] =
      [{ reqAccepted with status := .cancelled }] := by
  refine ⟨by decide, by decide, by decide, by decide⟩

/-- C6 (amended): the cancel operation sets the targeted row to
`cancelled` for any caller the update policy accepts — requester, provider
or admin — regardless of the row's current status; a caller the policy
rejects leaves the row unchanged.  The requester-only / pending-only
restriction lives solely in which rows the Networks page renders a cancel
button for. -/
theorem c6_cancel_policy (user_roles : List UserRole) (uid : Nat)
    (reqs : List SkillRequest) (r : SkillRequest) (hmem : r ∈ reqs) :
    (skillRequestsUpdateUsing user_roles uid r = true →
      { r with status := .cancelled } ∈
        handleDeleteRequest user_roles uid r.id reqs) ∧
    (skillRequestsUpdateUsing user_roles uid r = false →
      r ∈ handleDeleteRequest user_roles uid r.id reqs) := by
  constructor
  · intro hpol
    exact update_applies_of_policy user_roles uid reqs r .cancelled hmem hpol
  · intro hpol
    exact update_skips_of_no_policy user_roles uid reqs r .cancelled r.id hmem hpol

/-- C6 (witness): the provider can cancel the accepted fixture request,
while the stranger (user 3) cannot touch it. -/
theorem c6_cancel_policy_witness :
    { reqAccepted with status := .cancelled } ∈
      handleDeleteRequest [] 2 reqAccepted.id [reqAccepted] ∧
    reqAccepted ∈ handleDeleteRequest [] 3 reqAccepted.id [reqAccepted] := by
  refine ⟨(c6_cancel_policy [] 2 [reqAccepted] reqAccepted (by decide)).1 (by decide),
    (c6_cancel_policy [] 3 [reqAccepted] reqAccepted (by decide)).2 (by decide)⟩

/-- C7: either participant of an accepted request may mark it completed
with a single write: the complete operation transitions the row from
`accepted` to `completed` with no confirmation from the other
participant. -/
theorem c7_complete_by_one_participant (user_roles : List UserRole)
    (uid : Nat) (reqs : List SkillRequest) (r : SkillRequest)
    (hmem : r ∈ reqs) (hpart : uid = r.requester_id ∨ uid = r.provider_id)
    (hacc : r.status = .accepted) :
    { r with status := .completed } ∈
      handleCompleteSwap user_roles uid r.id reqs := by
  exact update_applies_of_policy user_roles uid reqs r .completed hmem
    (participant_passes_update_policy user_roles uid r hpart)

/-- C7 (witness): the provider alone completes the accepted fixture
request. -/
theorem c7_complete_by_one_participant_witness :
    { reqAccepted with status := .completed } ∈
      handleCompleteSwap [] 2 reqAccepted.id [reqAccepted] :=
  c7_complete_by_one_participant [] 2 [reqAccepted] reqAccepted
    (by decide) (by decide) (by decide)

/-- Anatomy of a successful rating insert: all three store-side gates
passed and the new state appends the row and runs the trigger with the
caller's rights. -/
theorem insertRating_ok (user_roles : List UserRole) (uid : Nat)
    (r : Rating) (db db' : RatingsDb)
    (h : insertRating user_roles uid r db = .ok db') :
    ratingsInsertWithCheck uid r = true ∧
    ratingCheckConstraint r = true ∧
    ratingKeyConflict db.ratings r = false ∧
    db' = { ratings := db.ratings ++ [r],
            profiles :=
              update_profile_stats user_roles uid (db.ratings ++ [r])
                r.rated_id db.profiles } := by
  by_cases h1 : ratingsInsertWithCheck uid r = true
  · by_cases h2 : ratingCheckConstraint r = true
    · by_cases h3 : ratingKeyConflict db.ratings r = true
      · simp [insertRating, h1, h2, h3] at h
      · simp [insertRating, h1, h2, h3] at h
        exact ⟨h1, h2, by simp [h3], h.symm⟩
    · simp [insertRating, h1, h2] at h
  · simp [insertRating, h1] at h

/-- A rating insert whose key collides with an existing row fails, and the
store state is unchanged. -/
theorem insertRating_conflict (user_roles : List UserRole) (uid : Nat)
    (r : Rating) (db : RatingsDb)
    (h : ratingKeyConflict db.ratings r = true) :
    insertOk (insertRating user_roles uid r db) = false ∧
    ratingsStateAfter user_roles uid r db = db := by
  by_cases h1 : ratingsInsertWithCheck uid r = true
  · by_cases h2 : ratingCheckConstraint r = true
    · simp [insertRating, ratingsStateAfter, insertOk, h1, h2, h]
    · simp [insertRating, ratingsStateAfter, insertOk, h1, h2]
  · simp [insertRating, ratingsStateAfter, insertOk, h1]

/-- Anatomy of a successful Rate-page load: the returned request is the
found row, the caller is one of its participants, and no rating by the
caller for this request exists yet. -/
theorem fetchSkillRequest_some (user_roles : List UserRole)
    (uid reqId : Nat) (reqs : List SkillRequest) (ratings : List Rating)
    (rd : SkillRequest)
    (h : fetchSkillRequest user_roles uid reqId reqs ratings = some rd) :
    rd ∈ reqs ∧ rd.id = reqId ∧
    (uid = rd.requester_id ∨ uid = rd.provider_id) ∧
    hasRatingBy ratings reqId uid = false := by
  unfold fetchSkillRequest at h
  cases hf : reqs.find? (fun r =>
      r.id == reqId &&
      (uid == r.requester_id || uid == r.provider_id ||
       is_admin user_roles uid)) with
  | none => rw [hf] at h; cases h
  | some rd0 =>
    rw [hf] at h
    have hmem := List.mem_of_find?_eq_some hf
    have hpred := List.find?_some hf
    by_cases hu : rd0.requester_id ≠ uid ∧ rd0.provider_id ≠ uid
    · simp [hu] at h
    · by_cases hr : hasRatingBy ratings reqId uid = true
      · simp [hu, hr] at h
      · simp [hu, hr] at h
        subst h
        have hid : rd0.id = reqId := by
          have := (Bool.and_eq_true _ _).mp hpred
          exact beq_iff_eq.mp this.1
        have hpart : uid = rd0.requester_id ∨ uid = rd0.provider_id := by
          rcases not_and_or.mp hu with h' | h'
          · exact Or.inl (not_ne_iff.mp h').symm
          · exact Or.inr (not_ne_iff.mp h').symm
        exact ⟨hmem, hid, hpart, by simp [hr]⟩

/-- C2: the pair (request_id, rater_id) stays pairwise unique across any
attempted insert, and an insert whose pair collides with an existing row
fails with the store state (hence the first rating) unchanged. -/
theorem c2_rating_key_unique (user_roles : List UserRole) (uid : Nat)
    (r : Rating) (db : RatingsDb) (hU : RatingKeysUnique db.ratings) :
    RatingKeysUnique (ratingsStateAfter user_roles uid r db).ratings ∧
    (ratingKeyConflict db.ratings r = true →
      insertOk (insertRating user_roles uid r db) = false ∧
      ratingsStateAfter user_roles uid r db = db) := by
  constructor
  · cases hres : insertRating user_roles uid r db with
    | error e => simpa [ratingsStateAfter, hres] using hU
    | ok db' =>
      obtain ⟨-, -, h3, hdb⟩ := insertRating_ok user_roles uid r db db' hres
      have hnew : ∀ x ∈ db.ratings,
          ¬(x.request_id = r.request_id ∧ x.rater_id = r.rater_id) := by
        intro x hx hcontra
        have := List.any_eq_false.mp h3 x hx
        simp [hcontra.1, hcontra.2] at this
      have : RatingKeysUnique (db.ratings ++ [r]) := by
        rw [RatingKeysUnique, List.pairwise_append]
        exact ⟨hU, List.pairwise_singleton _ _,
          fun a ha b hb => by
            rw [List.mem_singleton] at hb
            subst hb
            exact hnew a ha⟩
      simpa [ratingsStateAfter, hres, hdb] using this
  · intro hconf
    exact insertRating_conflict user_roles uid r db hconf

/-- C2 (witness): the second rating by rater 1 for request 10 collides
with the fixture row and is refused, leaving the store unchanged. -/
theorem c2_rating_key_unique_witness :
    RatingKeysUnique (ratingsStateAfter [] 1 ratingDup dbRated).ratings ∧
    insertOk (insertRating [] 1 ratingDup dbRated) = false ∧
    ratingsStateAfter [] 1 ratingDup dbRated = dbRated := by
  have h := c2_rating_key_unique [] 1 ratingDup dbRated (by decide)
  exact ⟨h.1, (h.2 (by decide)).1, (h.2 (by decide)).2⟩

/-- C3 (counterexample): `update_profile_stats` is not `SECURITY DEFINER`,
so its profile update runs with the rater's rights and is filtered away by
the profiles update policy.  Rater 4's insert for rated user 7 commits the
rating, yet user 7's stored `average_rating` stays 9/2 while the mean of
the committed ratings is 13/3: the aggregate is stale and does not equal
the mean, refuting the claimed same-transaction recomputation. -/
theorem c3_counterexample :
    insertOk (insertRating [] 4 ratingThird dbSevens) = true ∧
    (ratingsStateAfter [] 4 ratingThird dbSevens).ratings =
      dbSevens.ratings ++ [ratingThird] ∧
    (ratingsStateAfter [] 4 ratingThird dbSevens).profiles = [profileSeven] ∧
    ratingMean (ratingsFor (ratingsStateAfter [] 4 ratingThird dbSevens).ratings 7) =
      13/3 ∧
    profileSeven.average_rating = 9/2 ∧
    (9 : ℚ)/2 ≠ 13/3 := by
  refine ⟨by decide, rfl, rfl, ?_, rfl, by norm_num⟩
  simp [ratingsStateAfter, insertRating, dbSevens, ratingThird,
    ratingsInsertWithCheck, ratingCheckConstraint, ratingKeyConflict,
    ratingMean, ratingSum, ratingsFor, List.filter]
  norm_num

/-- C3 (amended): a successful rating insert commits the new row and fires
the aggregate recomputation in the same transaction, but the trigger runs
with invoker rights, so its profile update is filtered by the profiles
update policy: when the rater is neither the rated user nor an admin the
rated user's profile rows are left entirely unchanged and the aggregates
go stale; on the rows the invoker may update, `average_rating` becomes the
arithmetic mean of the rated user's received ratings rounded to the
two-decimal column scale and `successful_swaps` the count of their
distinct rated requests, over the post-insert ratings. -/
theorem c3_profile_stats_policy_filtered (user_roles : List UserRole)
    (uid : Nat) (r : Rating) (db db' : RatingsDb)
    (h : insertRating user_roles uid r db = .ok db') :
    db'.ratings = db.ratings ++ [r] ∧
    (uid ≠ r.rated_id → is_admin user_roles uid = false →
      db'.profiles = db.profiles) ∧
    (∀ p ∈ db'.profiles, p.user_id = r.rated_id →
      profilesUpdateUsing user_roles uid p = true →
      p.average_rating =
        decimal3_2 (ratingMean (ratingsFor db'.ratings r.rated_id)) ∧
      p.successful_swaps =
        distinctRequestCount (ratingsFor db'.ratings r.rated_id)) := by
  obtain ⟨-, -, -, hdb⟩ := insertRating_ok user_roles uid r db db' h
  subst hdb
  refine ⟨rfl, ?_, ?_⟩
  · intro hne hadm
    simp only [update_profile_stats]
    refine (List.map_congr_left ?_).trans (List.map_id db.profiles)
    intro p _
    by_cases hpu : (p.user_id == r.rated_id) = true
    · have huid : (uid == p.user_id) = false := by
        rw [beq_eq_false_iff_ne]
        intro he
        exact hne (he.trans (beq_iff_eq.mp hpu))
      simp [profilesUpdateUsing, huid, hadm, hpu]
    · simp [hpu]
  · intro p hp hpu hpol
    simp only [update_profile_stats] at hp
    obtain ⟨q, hq, hfq⟩ := List.mem_map.mp hp
    by_cases hcond :
        (q.user_id == r.rated_id && profilesUpdateUsing user_roles uid q) = true
    · rw [if_pos hcond] at hfq
      subst hfq
      have hrec : r ∈ (db.ratings ++ [r]).filter (fun x => x.rated_id == r.rated_id) := by
        simp [List.mem_filter]
      have hlen :
          ((db.ratings ++ [r]).filter (fun x => x.rated_id == r.rated_id)).length ≠ 0 := by
        intro hzero
        rw [List.length_eq_zero] at hzero
        rw [hzero] at hrec
        cases hrec
      constructor
      · simp only [if_neg hlen]
        rfl
      · rfl
    · rw [if_neg hcond] at hfq
      subst hfq
      refine absurd ?_ hcond
      rw [Bool.and_eq_true]
      exact ⟨beq_iff_eq.mpr hpu, hpol⟩

/-- C3 (witness): the amended theorem applied twice to the fixture insert.
As plain rater 4 the rating commits while user 7's profile keeps its old
aggregates; as admin rater 4 (who passes the profiles update policy) the
aggregates are recomputed to the rounded mean and the distinct-request
count over the three committed ratings. -/
theorem c3_profile_stats_policy_filtered_witness :
    insertRating [] 4 ratingThird dbSevens = .ok dbSevensStale ∧
    dbSevensStale.profiles = dbSevens.profiles ∧
    insertRating adminFour 4 ratingThird dbSevens = .ok dbSevensAfter ∧
    profileSevenAfter.average_rating =
      decimal3_2 (ratingMean (ratingsFor dbSevensAfter.ratings 7)) ∧
    profileSevenAfter.successful_swaps =
      distinctRequestCount (ratingsFor dbSevensAfter.ratings 7) := by
  have h0 : insertRating [] 4 ratingThird dbSevens = .ok dbSevensStale := rfl
  have h1 : insertRating adminFour 4 ratingThird dbSevens = .ok dbSevensAfter := by
    simp [insertRating, dbSevens, dbSevensAfter, ratingThird, adminFour,
      ratingsInsertWithCheck, ratingCheckConstraint, ratingKeyConflict,
      update_profile_stats, profilesUpdateUsing, is_admin, decimal3_2,
      List.filter, List.dedup, profileSeven, profileSevenAfter]
    norm_num [round_eq]
  have hstale :=
    (c3_profile_stats_policy_filtered [] 4 ratingThird dbSevens dbSevensStale
      h0).2.1 (by decide) (by decide)
  have hadm :=
    c3_profile_stats_policy_filtered adminFour 4 ratingThird dbSevens
      dbSevensAfter h1
  have hp := hadm.2.2 profileSevenAfter (by simp [dbSevensAfter]) (by decide)
    (by decide)
  exact ⟨h0, hstale, h1, hp.1, hp.2⟩

/-- The Rate page bails out (returns nothing) whenever the caller already
rated the request: the read-before-write duplicate check. -/
theorem fetchSkillRequest_dup_none (user_roles : List UserRole)
    (uid reqId : Nat) (reqs : List SkillRequest) (ratings : List Rating)
    (hdup : hasRatingBy ratings reqId uid = true) :
    fetchSkillRequest user_roles uid reqId reqs ratings = none := by
  unfold fetchSkillRequest
  cases hf : reqs.find? (fun r =>
      r.id == reqId &&
      (uid == r.requester_id || uid == r.provider_id ||
       is_admin user_roles uid)) with
  | none => rfl
  | some rd0 =>
    by_cases hu : rd0.requester_id ≠ uid ∧ rd0.provider_id ≠ uid
    · simp [hu]
    · simp [hu, hdup]

/-- C5: a Rate-page submission succeeds only when the caller is the
requester or the provider of the referenced request and no rating by the
caller for it existed; when one exists, the page flow refuses
(read-before-write), and so does the store itself for any direct insert
with that key (the uniqueness constraint), leaving the state unchanged. -/
theorem c5_rating_submit_guarded (user_roles : List UserRole)
    (uid reqId ratingVal : Nat) (feedback : Option String) (newId : Nat)
    (reqs : List SkillRequest) (db : RatingsDb) :
    (∀ db', ratePageSubmit user_roles uid reqId ratingVal feedback newId reqs db = .ok db' →
      ∃ rd, rd ∈ reqs ∧ rd.id = reqId ∧
        (uid = rd.requester_id ∨ uid = rd.provider_id) ∧
        hasRatingBy db.ratings reqId uid = false) ∧
    (hasRatingBy db.ratings reqId uid = true →
      insertOk (ratePageSubmit user_roles uid reqId ratingVal feedback newId reqs db) = false) ∧
    (∀ r : Rating, r.request_id = reqId → r.rater_id = uid →
      hasRatingBy db.ratings reqId uid = true →
      insertOk (insertRating user_roles uid r db) = false ∧
      ratingsStateAfter user_roles uid r db = db) := by
  refine ⟨?_, ?_, ?_⟩
  · intro db' h
    unfold ratePageSubmit at h
    cases hf : fetchSkillRequest user_roles uid reqId reqs db.ratings with
    | none => rw [hf] at h; cases h
    | some rd =>
      obtain ⟨hmem, hid, hpart, hnone⟩ :=
        fetchSkillRequest_some user_roles uid reqId reqs db.ratings rd hf
      exact ⟨rd, hmem, hid, hpart, hnone⟩
  · intro hdup
    simp [ratePageSubmit,
      fetchSkillRequest_dup_none user_roles uid reqId reqs db.ratings hdup,
      insertOk]
  · intro r h1 h2 hdup
    subst h1
    subst h2
    exact insertRating_conflict user_roles r.rater_id r db hdup

/-- C5 (witness): rater 1 already rated fixture request 10, so both the
page flow and a direct store insert with the same key are refused. -/
theorem c5_rating_submit_guarded_witness :
    hasRatingBy dbRated.ratings 10 1 = true ∧
    insertOk (ratePageSubmit [] 1 10 5 none 2 [reqCompleted] dbRated) = false ∧
    insertOk (insertRating [] 1 ratingDup dbRated) = false ∧
    ratingsStateAfter [] 1 ratingDup dbRated = dbRated := by
  have h := c5_rating_submit_guarded [] 1 10 5 none 2 [reqCompleted] dbRated
  have h3 := h.2.2 ratingDup (by decide) (by decide) (by decide)
  exact ⟨by decide, h.2.1 (by decide), h3.1, h3.2⟩

/-- C4 (counterexample): the claim says the request-creation operation
queries for an existing pending request with the same skill pair and
refuses the insert when one is found.  The primary client's
`handleSubmitRequest` performs no such check: with an identical pending
request already present it succeeds and appends a second one. -/
theorem c4_counterexample :
    pendingDuplicateExists [reqPending] 1 2 100 200 = true ∧
    handleSubmitRequest 1 13 2 100 200 none [reqPending] =
      .ok [reqPending,
        { id := 13, requester_id := 1, provider_id := 2,
          offered_skill_id := 100, wanted_skill_id := 200, message := none,
          status := .pending }] := by
  refine ⟨by decide, rfl⟩

/-- C4 (amended): no database constraint blocks duplicate pending
requests, and the primary client's `handleSubmitRequest` inserts without
any existence check — it succeeds whatever rows already exist; the
pre-insert pending-duplicate check exists only in the parallel Node
backend's `createSwapRequest`, which refuses when a pending swap for the
same pair is present. -/
theorem c4_duplicate_check_location :
    (∀ (uid newId providerId offId wantId : Nat) (msg : Option String)
       (reqs : List SkillRequest),
      handleSubmitRequest uid newId providerId offId wantId msg reqs =
        .ok (reqs ++
          [{ id := newId, requester_id := uid, provider_id := providerId,
             offered_skill_id := offId, wanted_skill_id := wantId,
             message := msg, status := .pending }])) ∧
    (∀ (callerId recipient : Nat) (offered requested : String)
       (msg : Option String) (users : List NodeUser)
       (swaps : List NodeSwapRequest),
      swaps.any (fun s =>
        s.requester == callerId && s.recipient == recipient &&
        s.offeredSkill == offered && s.requestedSkill == requested &&
        s.status == "pending") = true →
      insertOk (createSwapRequest callerId recipient offered requested msg
        users swaps) = false) := by
  constructor
  · intro uid newId providerId offId wantId msg reqs
    simp [handleSubmitRequest, insertSkillRequest, skillRequestsInsertWithCheck]
  · intro callerId recipient offered requested msg users swaps hdup
    unfold createSwapRequest
    cases hf1 : users.find? (fun u => u.id == recipient) with
    | none => simp [insertOk]
    | some recipientUser =>
      cases hf2 : users.find? (fun u => u.id == callerId) with
      | none => simp [insertOk]
      | some requester =>
        by_cases h1 : requester.skillsOffered.any (fun s => s.name == offered) = true
        · by_cases h2 : recipientUser.skillsOffered.any
              (fun s => s.name == requested) = true
          · simp [h1, h2, hdup, insertOk]
          · simp [h1, h2, insertOk]
        · simp [h1, insertOk]

/-- C4 (witness): with the pending fixture swap already stored, the Node
backend's creation path refuses, while the primary client's creation path
succeeds on the matching supabase-side state. -/
theorem c4_duplicate_check_location_witness :
    handleSubmitRequest 1 14 2 100 200 none [reqPending] =
      .ok ([reqPending] ++
        [{ id := 14, requester_id := 1, provider_id := 2,
           offered_skill_id := 100, wanted_skill_id := 200, message := none,
           status := .pending }]) ∧
    insertOk (createSwapRequest 1 2 "guitar" "cooking" none nodeUsers
      [nodeSwapPending]) = false := by
  refine ⟨c4_duplicate_check_location.1 1 14 2 100 200 none [reqPending],
    c4_duplicate_check_location.2 1 2 "guitar" "cooking" none nodeUsers
      [nodeSwapPending] (by decide)⟩

/-- The retry loop makes at most one fetch per unit of retry budget plus
the initial attempt. -/
theorem attemptFetch_attempts_le (fetchAt : Nat → FetchOutcome) :
    ∀ (n i : Nat), (attemptFetch fetchAt n i).2 ≤ n + 1 := by
  intro n
  induction n with
  | zero =>
    intro i
    cases h : fetchAt i with
    | err => simp [attemptFetch, h]
    | ok r => cases r <;> simp [attemptFetch, h]
  | succ n ih =>
    intro i
    cases h : fetchAt i with
    | err =>
      simp only [attemptFetch, h]
      exact Nat.succ_le_succ (ih (i + 1))
    | ok r => cases r <;> simp [attemptFetch, h]

/-- When every fetch errors, the retry loop resolves the default role. -/
theorem attemptFetch_all_err (fetchAt : Nat → FetchOutcome)
    (h : ∀ k, fetchAt k = .err) :
    ∀ (n i : Nat), (attemptFetch fetchAt n i).1 = .user := by
  intro n
  induction n with
  | zero => intro i; simp [attemptFetch, h i]
  | succ n ih => intro i; simp [attemptFetch, h i, ih (i + 1)]

/-- C8 (counterexample): the claim says at most 5 fetch attempts are made,
but `maxRetries = 5` counts retries after the initial attempt: when every
fetch fails, the loop performs 6 fetch attempts. -/
theorem c8_counterexample :
    maxRetries = 5 ∧
    (attemptFetch allErrFetch maxRetries 0).2 = 6 ∧
    ¬ (attemptFetch allErrFetch maxRetries 0).2 ≤ 5 := by
  refine ⟨rfl, by decide, by decide⟩

/-- C8 (amended): role resolution performs at most 6 fetch attempts (the
initial attempt plus up to `maxRetries = 5` retries, each preceded by a
1-second wait, as `loopElapsed` accounts); the loop is raced against a
hard 8-second timeout resolving `'user'`, so whenever the loop's elapsed
time reaches 8 seconds, or every attempt fails, the resolved role is the
default `'user'`. -/
theorem c8_retry_timeout (durations : Nat → Nat)
    (fetchAt : Nat → FetchOutcome) :
    (attemptFetch fetchAt maxRetries 0).2 ≤ maxRetries + 1 ∧
    ((∀ k, fetchAt k = .err) → fetchUserRoleTimed durations fetchAt = .user) ∧
    (8000 ≤ loopElapsed durations (attemptFetch fetchAt maxRetries 0).2 →
      fetchUserRoleTimed durations fetchAt = .user) := by
  refine ⟨attemptFetch_attempts_le fetchAt maxRetries 0, ?_, ?_⟩
  · intro h
    show (if loopElapsed durations (attemptFetch fetchAt maxRetries 0).2 < 8000
        then (attemptFetch fetchAt maxRetries 0).1 else AppRole.user) = .user
    rw [attemptFetch_all_err fetchAt h maxRetries 0]
    split <;> rfl
  · intro h
    show (if loopElapsed durations (attemptFetch fetchAt maxRetries 0).2 < 8000
        then (attemptFetch fetchAt maxRetries 0).1 else AppRole.user) = .user
    rw [if_neg (Nat.not_lt.mpr h)]

/-- C8 (witness): with every fetch failing and taking two seconds, the
loop spends 17 seconds, the timeout fires, and the role defaults to
`'user'`. -/
theorem c8_retry_timeout_witness :
    (attemptFetch allErrFetch maxRetries 0).2 ≤ maxRetries + 1 ∧
    loopElapsed twoSecondFetches (attemptFetch allErrFetch maxRetries 0).2 = 17000 ∧
    fetchUserRoleTimed twoSecondFetches allErrFetch = .user := by
  have h := c8_retry_timeout twoSecondFetches allErrFetch
  exact ⟨h.1, by decide, h.2.2 (by decide)⟩

/-- C9: listing a request's messages yields exactly the stored messages of
that request, ordered by creation time non-decreasing (creation time is
the only ordering key the query names). -/
theorem c9_messages_sorted (msgs : List Message) (reqId : Nat) :
    List.Sorted MessageLE (fetchChatMessages msgs reqId) ∧
    (fetchChatMessages msgs reqId).Perm (messagesOfRequest msgs reqId) ∧
    ∀ m ∈ fetchChatMessages msgs reqId, m.skill_request_id = reqId := by
  refine ⟨List.sorted_insertionSort MessageLE _,
    List.perm_insertionSort MessageLE _, ?_⟩
  intro m hm
  have hmem : m ∈ messagesOfRequest msgs reqId :=
    (List.perm_insertionSort MessageLE _).mem_iff.mp hm
  simp only [messagesOfRequest, List.mem_filter] at hmem
  exact beq_iff_eq.mp hmem.2

/-- C9 (witness): the fixture messages of request 5 come back sorted and
as a permutation of the stored ones. -/
theorem c9_messages_sorted_witness :
    List.Sorted MessageLE (fetchChatMessages msgsFixture 5) ∧
    (fetchChatMessages msgsFixture 5).Perm (messagesOfRequest msgsFixture 5) :=
  ⟨(c9_messages_sorted msgsFixture 5).1, (c9_messages_sorted msgsFixture 5).2.1⟩

/-- A role read for a user with no admin role row can never produce an
admin role: the SELECT policy shows the caller only their own rows. -/
theorem storeSelectRole_not_admin (user_roles : List UserRole) (uid : Nat)
    (netErr : Bool) (h : is_admin user_roles uid = false) :
    storeSelectRole user_roles uid netErr ≠ .ok (some .admin) := by
  unfold storeSelectRole
  by_cases he : netErr = true
  · simp [he]
  · simp only [Bool.not_eq_true] at he
    subst he
    simp only [if_neg Bool.false_ne_true]
    cases hf : user_roles.filter (fun ur => ur.user_id == uid) with
    | nil => simp
    | cons ur rest =>
      cases rest with
      | nil =>
        simp only [FetchOutcome.ok.injEq, Option.some.injEq, ne_eq]
        intro hrole
        have hmem : ur ∈ user_roles.filter (fun ur => ur.user_id == uid) := by
          rw [hf]; exact List.mem_singleton_self ur
        obtain ⟨hin, hid⟩ := List.mem_filter.mp hmem
        have := List.any_eq_false.mp h ur hin
        simp [hid, hrole] at this
      | cons ur2 rest2 => simp

/-- When no fetch can produce an admin row, the retry loop resolves the
plain `user` role. -/
theorem attemptFetch_no_admin (fetchAt : Nat → FetchOutcome)
    (h : ∀ k, fetchAt k ≠ .ok (some .admin)) :
    ∀ (n i : Nat), (attemptFetch fetchAt n i).1 = .user := by
  intro n
  induction n with
  | zero =>
    intro i
    cases hf : fetchAt i with
    | err => simp [attemptFetch, hf]
    | ok r =>
      cases r with
      | none => simp [attemptFetch, hf]
      | some role =>
        cases role with
        | admin => exact absurd hf (h i)
        | user => simp [attemptFetch, hf]
  | succ n ih =>
    intro i
    cases hf : fetchAt i with
    | err => simp [attemptFetch, hf, ih (i + 1)]
    | ok r =>
      cases r with
      | none => simp [attemptFetch, hf]
      | some role =>
        cases role with
        | admin => exact absurd hf (h i)
        | user => simp [attemptFetch, hf]

/-- The admin-role insert the hook falls back to can never succeed: a
caller without an admin role row fails the `user_roles` policy, and one
with such a row violates `UNIQUE(user_id, role)`. -/
theorem storeInsertUserRole_admin_fails (user_roles : List UserRole)
    (uid : Nat) :
    insertOk (storeInsertUserRole user_roles uid
      { user_id := uid, role := .admin }) = false := by
  by_cases hA : is_admin user_roles uid = true
  · have hA' : user_roles.any (fun ur =>
        ur.user_id == uid && ur.role == AppRole.admin) = true := hA
    simp [storeInsertUserRole, hA, insertOk, hA']
  · simp [storeInsertUserRole, hA, insertOk]

/-- C10 (counterexample): in exactly the scenario the claim describes —
admin-intent flag set, role read failing, user 1 holding no admin role
row — the fallback insert is denied by the `user_roles` policy and role
resolution yields `'user'`, not `'admin'`. -/
theorem c10_counterexample :
    is_admin rolesPlainUser 1 = false ∧
    storeInsertUserRole rolesPlainUser 1 { user_id := 1, role := .admin } =
      .error .rls ∧
    fetchUserRoleResolved rolesPlainUser 1 true alwaysReadErr = .user := by
  refine ⟨by decide, rfl, by decide⟩

/-- C10 (amended): the hook does resolve `'admin'` when its fallback
insert succeeds, but that insert can never succeed against the store — a
caller without an admin role row fails the policy and one with it hits the
uniqueness constraint — so for a user with no pre-existing admin role row,
role resolution always resolves the default `'user'`, whatever the
admin-intent cache flag and the pattern of read errors. -/
theorem c10_admin_fallback_unreachable (user_roles : List UserRole)
    (uid : Nat) (adminIntent : Bool) (readErr : Nat → Bool) :
    insertOk (storeInsertUserRole user_roles uid
      { user_id := uid, role := .admin }) = false ∧
    (is_admin user_roles uid = false →
      fetchUserRoleResolved user_roles uid adminIntent readErr = .user) := by
  refine ⟨storeInsertUserRole_admin_fails user_roles uid, ?_⟩
  intro hNA
  have hsel : ∀ e, storeSelectRole user_roles uid e ≠ .ok (some .admin) :=
    fun e => storeSelectRole_not_admin user_roles uid e hNA
  have hloop0 :
      (attemptFetch (fun k => storeSelectRole user_roles uid (readErr k))
        maxRetries 0).1 = .user :=
    attemptFetch_no_admin _ (fun k => hsel (readErr k)) maxRetries 0
  have hloop1 :
      (attemptFetch (fun k => storeSelectRole user_roles uid (readErr (k + 1)))
        maxRetries 0).1 = .user :=
    attemptFetch_no_admin _ (fun k => hsel (readErr (k + 1))) maxRetries 0
  unfold fetchUserRoleResolved
  cases adminIntent with
  | false => simpa using hloop0
  | true =>
    simp only [if_true]
    cases hc : storeSelectRole user_roles uid (readErr 0) with
    | err =>
      cases hi : storeInsertUserRole user_roles uid { user_id := uid, role := .admin } with
      | ok rows =>
        have := storeInsertUserRole_admin_fails user_roles uid
        rw [hi] at this
        simp [insertOk] at this
      | error e => simpa using hloop1
    | ok r =>
      cases r with
      | none => simpa using hloop1
      | some role =>
        cases role with
        | admin => exact absurd hc (hsel (readErr 0))
        | user => simpa using hloop1

/-- C10 (witness): the amended theorem applied to the fixture state of
user 1 (no admin role row, every read failing, intent flag set). -/
theorem c10_admin_fallback_unreachable_witness :
    insertOk (storeInsertUserRole rolesPlainUser 1
      { user_id := 1, role := .admin }) = false ∧
    fetchUserRoleResolved rolesPlainUser 1 true alwaysReadErr = .user := by
  have h := c10_admin_fallback_unreachable rolesPlainUser 1 true alwaysReadErr
  exact ⟨h.1, h.2 (by decide)⟩
